import Mathlib

/-!
Shallow embedding of the care-recipient management interface
(`management_interface` Django app and its `internal_integrations`
management-api client), for checking the natural-language specification
against the code.

Conventions:
* Python strings are Lean `String`s; machine behaviour of `str.split`,
  `str.strip`, `"".join(...)` is modelled character-by-character.
* The external key-derivation function `hashlib.scrypt` is outside the
  repository; it is modelled as an opaque deterministic function of its
  arguments (`data`, `salt`, `n`, `r`, `p`).
* The database is a list of persisted records threaded through the
  operations; the downstream subscription gateway is an oracle parameter.
* Python exceptions are explicit error values.
-/

set_option autoImplicit false

namespace ManagementInterface

instance instDecidableEqExcept {ε α : Type} [DecidableEq ε] [DecidableEq α] :
    DecidableEq (Except ε α) := fun x y =>
  match x, y with
  | .ok a, .ok b =>
    if h : a = b then isTrue (by rw [h]) else isFalse (by simp [h])
  | .error e, .error f =>
    if h : e = f then isTrue (by rw [h]) else isFalse (by simp [h])
  | .ok _, .error _ => isFalse (by simp)
  | .error _, .ok _ => isFalse (by simp)

/-- Python `str.strip()`: drop leading and trailing whitespace. -/
def pyStrip (s : String) : String :=
  String.mk (((s.data.dropWhile Char.isWhitespace).reverse.dropWhile Char.isWhitespace).reverse)

/-- Python `"".join(s.split())` (forms.py line 78): remove every whitespace
character from the string. -/
def stripAllWhitespace (s : String) : String :=
  String.mk (s.data.filter (fun c => !c.isWhitespace))

/-- Split a character list at every separator position. -/
def splitOnPred (p : Char → Bool) : List Char → List (List Char)
  | [] => [[]]
  | c :: rest =>
    if p c then [] :: splitOnPred p rest
    else
      match splitOnPred p rest with
      | [] => [[c]]
      | piece :: more => (c :: piece) :: more

/-- Python `s.split()`: split on runs of whitespace, discarding empty pieces.
Used for the given-names tokenisation (forms.py line 91-93); the per-token
`.strip()` there is a no-op on the pieces. -/
def pySplitWhitespace (s : String) : List String :=
  ((splitOnPred Char.isWhitespace s.data).map String.mk).filter (fun t => t ≠ "")

/-- Python `str.lower()` restricted to ASCII, as used on CSV header keys
(admin.py line 161). -/
def pyLower (s : String) : String :=
  String.mk (s.data.map Char.toLower)

/-- A calendar date, the result of Django `DateField` cleaning. -/
structure Date where
  year : Nat
  month : Nat
  day : Nat
deriving DecidableEq, Repr

def isLeapYear (y : Nat) : Bool :=
  (y % 4 = 0 ∧ y % 100 ≠ 0) ∨ y % 400 = 0

def daysInMonth (y m : Nat) : Nat :=
  if m = 2 then (if isLeapYear y then 29 else 28)
  else if m = 4 ∨ m = 6 ∨ m = 9 ∨ m = 11 then 30
  else 31

def allDigits (s : String) : Bool :=
  s ≠ "" ∧ s.data.all Char.isDigit

def digitsToNat (cs : List Char) : Nat :=
  cs.foldl (fun acc c => acc * 10 + (c.toNat - '0'.toNat)) 0

/-- Parse `YYYY-MM-DD` (the ISO format accepted by Django's `DateField`),
validating month and day ranges as `datetime.date` does. -/
def parseDate (s : String) : Option Date :=
  match (splitOnPred (fun c => c = '-') s.data).map String.mk with
  | [y, m, d] =>
    if allDigits y ∧ allDigits m ∧ allDigits d then
      let yn := digitsToNat y.data
      let mn := digitsToNat m.data
      let dn := digitsToNat d.data
      if 1 ≤ yn ∧ yn ≤ 9999 ∧ 1 ≤ mn ∧ mn ≤ 12 ∧ 1 ≤ dn ∧ dn ≤ daysInMonth yn mn
      then some ⟨yn, mn, dn⟩ else none
    else none
  | _ => none

def padTo (w : Nat) (s : String) : String :=
  String.mk (List.replicate (w - s.length) '0') ++ s

/-- Python `str(date)`: ISO `YYYY-MM-DD` with zero padding. -/
def dateToString (d : Date) : String :=
  padTo 4 (Nat.repr d.year) ++ "-" ++ padTo 2 (Nat.repr d.month) ++ "-" ++ padTo 2 (Nat.repr d.day)

/-- Model of the external `hashlib.scrypt` key-derivation function
(outside the repository): an opaque deterministic function of the
password, the salt and the cost parameters `n`, `r`, `p`.  The model
output records all inputs, which keeps the function deterministic and
input-distinguishing; the cryptographic internals are not relevant to
any property proved here. -/
def scrypt (data salt : String) (n r p : Nat) : String :=
  "scrypt[" ++ Nat.repr n ++ "," ++ Nat.repr r ++ "," ++ Nat.repr p ++ "](" ++
    salt ++ ";" ++ data ++ ")"

/-- The two hashing configurations of forms.py (`HighSecurityHash`,
`NoSecurityHash`). -/
inductive HasherKind where
  | highSecurity
  | noSecurity
deriving DecidableEq, Repr

/-- `HighSecurityHash.encode` / `NoSecurityHash.encode` (forms.py lines
29-52): scrypt over the UTF-8 data with `str(salt)` as salt and the
configuration's cost parameters. -/
def HasherKind.encode (k : HasherKind) (salt data : String) : String :=
  match k with
  | .highSecurity => scrypt data salt 32768 12 6
  | .noSecurity => scrypt data salt 16 12 1

/-- A process environment, as queried by `os.getenv`. -/
def Env := String → Option String

def hobbleVariable : String := "STUPIDLY_HOBBLE_SECURITY"

def hobbleSentinel : String := "I_AM_AN_IDIOT_YES_I_REALLY_MEAN_IT"

/-- Hasher selection in `CareRecipientForm._generate_nhs_number_hash`
(forms.py lines 115-118): `NoSecurityHash` exactly when the environment
variable equals the sentinel, `HighSecurityHash` otherwise. -/
def selectHasher (env : Env) : HasherKind :=
  if env hobbleVariable = some hobbleSentinel then .noSecurity else .highSecurity

/-- `CareRecipientForm._generate_nhs_number_hash` (forms.py lines 113-120):
encode the cleaned NHS number with the cleaned birth date (stringified by
`str(salt)` inside `encode`) as salt. -/
def generate_nhs_number_hash (env : Env) (nhs_number : String) (birth_date : Date) : String :=
  (selectHasher env).encode (dateToString birth_date) nhs_number

/-- Raw field values of one care-recipient submission: a single-record form
submission or one CSV row (`_CareRecipientRecord`, admin.py lines 22-27). -/
structure RowData where
  provider_reference_id : String
  given_name : String
  family_name : String
  nhs_number : String
  birth_date : String
deriving DecidableEq, Repr

/-- Modelled from the spec: the persisted `CareRecipient` row.  The model
module (`models.py`) is not among the sources; spec §3 lists the persisted
fields — owning location, `provider_reference_id`, `nhs_number_hash`,
`subscription_id` — and states that given name, family name, the raw
identifier and the birth date are never persisted, so the record type has
no fields for them.  Audit metadata is omitted as irrelevant here. -/
structure StoredRecipient where
  care_provider_location : String
  provider_reference_id : String
  nhs_number_hash : String
  subscription_id : String
deriving DecidableEq, Repr

/-- The database table of persisted care recipients, in insertion order. -/
abbrev Store := List StoredRecipient

/-- Request data handed to `ManagementAPIClient.create_subscription` by
`CareRecipientForm._create_subscription` (forms.py lines 102-109). -/
structure CreateRequest where
  patient_given_name : List String
  patient_family_name : String
  nhs_number : String
  birth_date : Date
deriving DecidableEq, Repr

/-- The subscription-creation boundary: the downstream call either yields a
subscription id (a UUID, kept as its string form) or fails with a
`ManagementAPIClientError` message. -/
def CreateGateway := CreateRequest → Except String String

/-- Field values after Django's per-field cleaning succeeded. -/
structure CleanedFields where
  provider_reference_id : String
  given_name : String
  family_name : String
  nhs_number : String
  birth_date : Date
deriving DecidableEq, Repr

def requiredMsg : String := "This field is required."

def maxLengthMsg : String := "Ensure this value has at most the allowed number of characters."

def invalidDateMsg : String := "Enter a valid date."

/-- One field's cleaning: strip, then required-ness and max length, as
Django `CharField(required=True, max_length=...)` does. -/
def cleanCharField (name : String) (maxLength : Nat) (raw : String) :
    List (String × String) :=
  let v := pyStrip raw
  if v = "" then [(name, requiredMsg)]
  else if v.length > maxLength then [(name, maxLengthMsg)]
  else []

/-- The per-field errors Django's `_clean_fields` collects over the
`CareRecipientForm` fields (forms.py lines 55-68), in field order.
`provider_reference_id` is a model-derived character field (its model is
not among the sources; the spec calls it a caller-supplied string key),
modelled as required with no tighter bound. -/
def fieldErrorsOf (row : RowData) : List (String × String) :=
  (if pyStrip row.provider_reference_id = "" then [("provider_reference_id", requiredMsg)] else [])
  ++ cleanCharField "given_name" 64 row.given_name
  ++ cleanCharField "family_name" 64 row.family_name
  ++ cleanCharField "nhs_number" 12 row.nhs_number
  ++ (if pyStrip row.birth_date = "" then [("birth_date", requiredMsg)]
      else if (parseDate (pyStrip row.birth_date)).isNone then [("birth_date", invalidDateMsg)]
      else [])

/-- Django's `_clean_fields`: with no field errors, return the cleaned
(stripped, parsed) values. -/
def cleanFields (row : RowData) : Except (List (String × String)) CleanedFields :=
  match parseDate (pyStrip row.birth_date) with
  | some d =>
    if fieldErrorsOf row = [] then
      .ok ⟨pyStrip row.provider_reference_id, pyStrip row.given_name,
           pyStrip row.family_name, pyStrip row.nhs_number, d⟩
    else .error (fieldErrorsOf row)
  | none => .error (fieldErrorsOf row)

/-- The duplicate-identifier message of `CareRecipientForm.clean`
(forms.py lines 86-89), naming the conflicting record's reference id. -/
def duplicateMsg (ref : String) : String :=
  "Care recipient with this NHS number already exists in the database (with provider reference ID "
    ++ ref ++ ")"

/-- Result of running the form's validation (`full_clean`). -/
inductive FormOutcome where
  /-- Per-field errors; `clean` returned early without record-level checks. -/
  | fieldErrors (errs : List (String × String))
  /-- A record-level `ValidationError` raised inside `clean`
  (duplicate identifier or gateway failure): stored under `__all__`. -/
  | recordError (msg : String)
  /-- Validation succeeded with these cleaned values. -/
  | ok (cd : CleanedFields) (nhs_number_hash : String) (given_names : List String)
       (subscription_id : String)
deriving DecidableEq, Repr

/-- `CareRecipientForm` validation (forms.py lines 55-111): field cleaning,
then `clean`: normalise the NHS number, derive the hash, reject duplicates
(before any gateway call), split the given names, create the subscription.
The second component counts calls to the subscription gateway. -/
def formValidate (store : Store) (env : Env) (gw : CreateGateway) (row : RowData) :
    FormOutcome × Nat :=
  match cleanFields row with
  | .error errs => (.fieldErrors errs, 0)
  | .ok f =>
    let nhs := stripAllWhitespace f.nhs_number
    let h := generate_nhs_number_hash env nhs f.birth_date
    match store.find? (fun r => r.nhs_number_hash = h) with
    | some conflicting => (.recordError (duplicateMsg conflicting.provider_reference_id), 0)
    | none =>
      let given := pySplitWhitespace f.given_name
      match gw ⟨given, f.family_name, nhs, f.birth_date⟩ with
      | .error msg => (.recordError msg, 1)
      | .ok subId => (.ok f h given subId, 1)

/-- `CareRecipientForm.save` (forms.py lines 97-100) hitting the storage
layer: the insert succeeds unless a uniqueness constraint fires
(`nhs_number_hash` globally, `provider_reference_id` per location, spec §3),
in which case the database raises `IntegrityError` and nothing is stored. -/
def formSave (store : Store) (locId : String) (cd : CleanedFields)
    (h subId : String) : Except Unit (StoredRecipient × Store) :=
  if store.any (fun r => r.nhs_number_hash = h
      ∨ (r.provider_reference_id = cd.provider_reference_id
         ∧ r.care_provider_location = locId))
  then .error ()
  else
    let inserted := StoredRecipient.mk locId cd.provider_reference_id h subId
    .ok (inserted, store ++ [inserted])

/-- Outcome of one complete single-record submission. -/
inductive SubmitResult where
  | invalidFields (errs : List (String × String))
  | invalidRecord (msg : String)
  | integrityError
  | created (rec : StoredRecipient)
deriving DecidableEq, Repr

/-- One single-record submission end to end: validate, then save.  Returns
the outcome, the resulting database and the number of gateway calls. -/
def submitForm (store : Store) (env : Env) (gw : CreateGateway) (locId : String)
    (row : RowData) : SubmitResult × Store × Nat :=
  match formValidate store env gw row with
  | (.fieldErrors errs, n) => (.invalidFields errs, store, n)
  | (.recordError msg, n) => (.invalidRecord msg, store, n)
  | (.ok cd h _ subId, n) =>
    match formSave store locId cd h subId with
    | .error _ => (.integrityError, store, n)
    | .ok (rec, store') => (.created rec, store', n)

/-! ### Subscription gateway client (`internal_integrations/management_api/client.py`) -/

/-- One element of a FHIR `OperationOutcome.issue` array, keeping the only
field the client reads. -/
structure OutcomeIssue where
  diagnostics : Option String
deriving DecidableEq, Repr

/-- A FHIR `OperationOutcome` as parsed by `fhir.resources`; `issue` is a
required, non-empty array, so an empty list here corresponds to a body
that fails validation. -/
structure OperationOutcome where
  issue : List OutcomeIssue
deriving DecidableEq, Repr

/-- The HTTP response seen by `create_subscription`: the status code, the
`X-Subscription-Id` header if present, and the result of parsing the JSON
body as an `OperationOutcome` (`none` when the body is not valid JSON or
fails FHIR validation). -/
structure HTTPResponse where
  status_code : Nat
  x_subscription_id : Option String
  json_body : Option OperationOutcome
deriving DecidableEq, Repr

/-- The Python exceptions that can leave `create_subscription`. -/
inductive ClientError where
  /-- `ManagementAPIClientError(...)`, the domain error. -/
  | managementAPIClientError (diagnostics : Option String)
  /-- `pydantic.ValidationError` from `OperationOutcome(**response.json())`. -/
  | pydanticValidationError
  /-- `TypeError` from `uuid.UUID(None)` when the header is absent. -/
  | typeError
  /-- `ValueError` from `uuid.UUID` on a malformed header value. -/
  | valueError
deriving DecidableEq, Repr

/-- Worker for `pyReplace`: emit the replacement at each non-overlapping
pattern occurrence; `skip` counts pattern characters still to drop after
an occurrence was replaced. -/
def replaceGo (pat sub : List Char) (l : List Char) (skip : Nat) : List Char :=
  match l, skip with
  | [], _ => []
  | c :: rest, 0 =>
    if pat.isPrefixOf (c :: rest) then sub ++ replaceGo pat sub rest (pat.length - 1)
    else c :: replaceGo pat sub rest 0
  | _ :: rest, k + 1 => replaceGo pat sub rest k

/-- Python `str.replace`: replace every non-overlapping occurrence of
`pat`, scanning left to right. -/
def pyReplace (s pat sub : String) : String :=
  String.mk (replaceGo pat.data sub.data s.data 0)

def hexDigitValue (c : Char) : Option Nat :=
  if '0' ≤ c ∧ c ≤ '9' then some (c.toNat - '0'.toNat)
  else if 'a' ≤ c ∧ c ≤ 'f' then some (c.toNat - 'a'.toNat + 10)
  else if 'A' ≤ c ∧ c ≤ 'F' then some (c.toNat - 'A'.toNat + 10)
  else none

def hexValue (cs : List Char) : Option Nat :=
  cs.foldl
    (fun acc c =>
      match acc, hexDigitValue c with
      | some a, some v => some (a * 16 + v)
      | _, _ => none)
    (some 0)

/-- Python `uuid.UUID(hex)`: drop `urn:`/`uuid:` markers, strip enclosing
braces, remove hyphens; the remainder must be exactly 32 hex digits.  A
UUID is kept as its 128-bit value. -/
def parseUUID (s : String) : Option Nat :=
  let t := pyReplace (pyReplace s "urn:" "") "uuid:" ""
  let cs := (t.data.dropWhile (fun c => c = '{' ∨ c = '}')).reverse.dropWhile
    (fun c => c = '{' ∨ c = '}') |>.reverse
  let cs := cs.filter (fun c => c ≠ '-')
  if cs.length = 32 then hexValue cs else none

/-- `ManagementAPIClient.create_subscription` (client.py lines 20-63) after
the POST returned `resp`: on a status below 400 the subscription id is
parsed out of the `X-Subscription-Id` header; on 400 or above the body is
parsed as an `OperationOutcome` and the first issue's diagnostics raised
as `ManagementAPIClientError`. -/
def create_subscription (resp : HTTPResponse) : Except ClientError Nat :=
  if resp.status_code ≥ 400 then
    match resp.json_body with
    | none => .error .pydanticValidationError
    | some outcome =>
      match outcome.issue with
      | [] => .error .pydanticValidationError
      | issue0 :: _ => .error (.managementAPIClientError issue0.diagnostics)
  else
    match resp.x_subscription_id with
    | none => .error .typeError
    | some header =>
      match parseUUID header with
      | none => .error .valueError
      | some u => .ok u

/-- Is the result the domain error (`ManagementAPIClientError`)? -/
def isDomainError (r : Except ClientError Nat) : Bool :=
  match r with
  | .error (.managementAPIClientError _) => true
  | _ => false

/-! ### Deletion orchestrator (`CareRecipientAdmin`, admin.py lines 72-108) -/

/-- A user-facing message with its severity level. -/
inductive Message where
  | info (text : String)
  | warning (text : String)
  | error (text : String)
deriving DecidableEq, Repr

def Message.isInfo : Message → Bool
  | .info _ => true
  | _ => false

def Message.isError : Message → Bool
  | .error _ => true
  | _ => false

/-- The subscription-deletion boundary: `delete_subscription` on a
subscription id either succeeds or raises `ManagementAPIClientError`
with a message.  Modelled from the spec: the method body is not among the
sources (only its callers and tests are); spec §4.2 gives the contract
`delete_subscription(subscription_id) -> success|failure`. -/
def DeleteGateway := String → Except String Unit

/-- Modelled from the spec: `str(care_recipient)` used in the deletion
messages.  `models.py` (hence `__str__`) is not among the sources; the
record's caller-supplied external key is used as its display string. -/
def recipientStr (r : StoredRecipient) : String :=
  r.provider_reference_id

/-- Python `str.startswith`, character-by-character. -/
def strStartsWith (s pre : String) : Bool :=
  pre.data.isPrefixOf s.data

/-- Python `str.endswith`, character-by-character. -/
def strEndsWith (s suf : String) : Bool :=
  suf.data.reverse.isPrefixOf s.data.reverse

/-- The filter of the overridden `message_user` (admin.py lines 94-108):
drop the framework's generic bulk-delete success messages. -/
def messageSuppressed (text : String) : Bool :=
  strStartsWith text "Successfully deleted"
    ∨ (strStartsWith text "The" ∧ strEndsWith text "was deleted successfully.")

def emitUser (m : Message) : List Message :=
  match m with
  | .info t => if messageSuppressed t then [] else [m]
  | .warning t => if messageSuppressed t then [] else [m]
  | .error t => if messageSuppressed t then [] else [m]

def Message.text : Message → String
  | .info t => t
  | .warning t => t
  | .error t => t

/-- Does the gateway deletion fail for this record? -/
def delFails (gw : DeleteGateway) (r : StoredRecipient) : Bool :=
  match gw r.subscription_id with
  | .ok _ => false
  | .error _ => true

/-- The message `delete_queryset` produces for one record. -/
def deleteMessage (gw : DeleteGateway) (r : StoredRecipient) : Message :=
  match gw r.subscription_id with
  | .ok _ => .info (recipientStr r ++ " was deleted successfully")
  | .error e => .error ("Could not delete " ++ recipientStr r ++ ": " ++ e)

/-- `CareRecipientAdmin.delete_queryset` (admin.py lines 72-89): for each
record call `delete_subscription`; on success delete the record and report
success, on `ManagementAPIClientError` keep the record and report the
failure.  Returns the retained records, the user messages in order, and
the number of gateway calls. -/
def delete_queryset (gw : DeleteGateway) (records : List StoredRecipient) :
    List StoredRecipient × List Message × Nat :=
  match records with
  | [] => ([], [], 0)
  | r :: rest =>
    match gw r.subscription_id with
    | .ok _ =>
      let (remaining, msgs, n) := delete_queryset gw rest
      (remaining, emitUser (.info (recipientStr r ++ " was deleted successfully")) ++ msgs, n + 1)
    | .error e =>
      let (remaining, msgs, n) := delete_queryset gw rest
      (r :: remaining,
       emitUser (.error ("Could not delete " ++ recipientStr r ++ ": " ++ e)) ++ msgs, n + 1)

/-! ### Bulk import orchestrator (`CareProviderLocationAdmin`, admin.py lines 142-273) -/

/-- One parsed CSV data row as `csv.DictReader` yields it: header key to
cell value, in column order. -/
abbrev RawRow := List (String × String)

/-- The `{k.lower(): v for k, v in row.items()}` comprehension of
admin.py line 161. -/
def lowerKeys (row : RawRow) : RawRow :=
  row.map (fun kv => (pyLower kv.1, kv.2))

/-- `set(_CareRecipientRecord.__annotations__)` (admin.py lines 22-27). -/
def requiredColumns : List String :=
  ["provider_reference_id", "given_name", "family_name", "nhs_number", "birth_date"]

def rowKeys (row : RawRow) : List String := row.map Prod.fst

def sameKeySet (a b : List String) : Bool :=
  a.all (fun k => k ∈ b) && b.all (fun k => k ∈ a)

/-- `_is_csv_column_set_valid` (admin.py lines 226-227): compare the first
row's key set with the `_CareRecipientRecord` annotation set.  On an empty
list, `csv_data_list[0]` raises `IndexError` (the `.error` case). -/
def is_csv_column_set_valid (csv_data : List RawRow) : Except Unit Bool :=
  match csv_data with
  | [] => .error ()
  | first :: _ => .ok (sameKeySet (rowKeys first) requiredColumns)

def lookupField (row : RawRow) (k : String) : String :=
  match row.find? (fun kv => kv.1 = k) with
  | some kv => kv.2
  | none => ""

def toRowData (row : RawRow) : RowData :=
  ⟨lookupField row "provider_reference_id", lookupField row "given_name",
   lookupField row "family_name", lookupField row "nhs_number",
   lookupField row "birth_date"⟩

/-- The exceptions collected per row by `_bulk_create_care_recipients`. -/
inductive RowExn where
  | validationError (msg : String)
  | integrityError
deriving DecidableEq, Repr

/-- A `(row label, exception)` pair from the bulk-create error list. -/
abbrev ErrorEntry := String × RowExn

/-- The row label `f"{provider_reference_id} (line {counter})"`
(admin.py lines 245, 256, 268). -/
def rowLabel (ref : String) (counter : Nat) : String :=
  ref ++ " (line " ++ Nat.repr counter ++ ")"

/-- One iteration of the `_bulk_create_care_recipients` loop (admin.py
lines 234-271) on the row at position `counter`: a form with field errors
contributes one `ValidationError` per failing field; a record-level
(non-field) error is appended once via `non_field_errors` and once more by
the loop over `form.errors` (whose keys include `__all__`); a clean form
is saved, turning an `IntegrityError` into an error entry. -/
def rowProcess (env : Env) (gw : CreateGateway) (locId : String) (store : Store)
    (row : RowData) (counter : Nat) :
    List StoredRecipient × List ErrorEntry × Store :=
  let label := rowLabel row.provider_reference_id counter
  match formValidate store env gw row with
  | (.fieldErrors errs, _) =>
    ([], errs.map (fun fe =>
        (label, RowExn.validationError ("Field: " ++ fe.1 ++ ", error(s): " ++ fe.2))), store)
  | (.recordError msg, _) =>
    ([], [(label, RowExn.validationError msg),
          (label, RowExn.validationError ("Field: __all__, error(s): " ++ msg))], store)
  | (.ok cd h _ subId, _) =>
    match formSave store locId cd h subId with
    | .error _ => ([], [(label, RowExn.integrityError)], store)
    | .ok (inserted, store') => ([inserted], [], store')

/-- The `enumerate(csv_data)` loop of `_bulk_create_care_recipients`,
threading the database and the counter. -/
def bulkGo (env : Env) (gw : CreateGateway) (locId : String) (store : Store)
    (rows : List RowData) (counter : Nat) :
    List StoredRecipient × List ErrorEntry × Store :=
  match rows with
  | [] => ([], [], store)
  | row :: rest =>
    let p := rowProcess env gw locId store row counter
    let q := bulkGo env gw locId p.2.2 rest (counter + 1)
    (p.1 ++ q.1, p.2.1 ++ q.2.1, q.2.2)

/-- `_bulk_create_care_recipients` (admin.py lines 229-273). -/
def bulk_create_care_recipients (env : Env) (gw : CreateGateway) (locId : String)
    (store : Store) (rows : List RowData) :
    List StoredRecipient × List ErrorEntry × Store :=
  bulkGo env gw locId store rows 0

/-- `CSVImportMessages` (enums.py). -/
def msgInvalidColumnSet : String :=
  "You must provide a valid CSV file with the following columns: "
    ++ "NHS_NUMBER, BIRTH_DATE, FAMILY_NAME, GIVEN_NAME, PROVIDER_REFERENCE_ID"

def msgLineCountExceeded : String :=
  "The CSV file line count exceeds maximum number of lines"

def msgFileImported : String :=
  "Your CSV file has been imported. New Care Recipients created"

/-- Outcome of the POST branch of `import_care_recipients` for a file that
is present and decodes as text. -/
inductive ImportOutcome where
  /-- One structural error message; the batch was aborted. -/
  | structuralError (message : String)
  /-- The summary message followed by one message per collected error. -/
  | imported (messages : List Message)
  /-- An exception escaped the handler (no message, a stack trace). -/
  | crashed (exn : String)
deriving DecidableEq, Repr

/-- `import_care_recipients` (admin.py lines 142-203) from the point where
`csv_data` has been parsed: column-set check (which indexes
`csv_data_list[0]`), line-count check against the configured maximum, then
the bulk create, then rendering of the summary and per-error messages
(`IntegrityError` as an `already exists` warning, `ValidationError` as an
error with the exception's message). -/
def import_care_recipients (maxLines : Nat) (env : Env) (gw : CreateGateway)
    (locId : String) (store : Store) (raw : List RawRow) : ImportOutcome × Store :=
  let csv_data := raw.map lowerKeys
  match is_csv_column_set_valid csv_data with
  | .error _ => (.crashed "IndexError", store)
  | .ok false => (.structuralError msgInvalidColumnSet, store)
  | .ok true =>
    if csv_data.length > maxLines then
      (.structuralError (msgLineCountExceeded ++ ": " ++ Nat.repr maxLines), store)
    else
      let (created, errors, store') :=
        bulk_create_care_recipients env gw locId store (csv_data.map toRowData)
      let msgs := Message.info (msgFileImported ++ ": " ++ Nat.repr created.length)
        :: errors.map (fun e =>
            match e.2 with
            | .integrityError => Message.warning (e.1 ++ ": already exists")
            | .validationError m => Message.error (e.1 ++ ": " ++ m))
      (.imported msgs, store')

/-! ### Concrete instances used by witnesses -/

/-- A deletion gateway that fails exactly on subscription id `s2`. -/
def exampleDeleteGateway : DeleteGateway :=
  fun sid => if sid = "s2" then .error "service unavailable" else .ok ()

/-- Three persisted records, the second of which owns subscription `s2`. -/
def exampleRecipients : List StoredRecipient :=
  [⟨"LOC", "AX10001", "h1", "s1"⟩, ⟨"LOC", "AX10002", "h2", "s2"⟩,
   ⟨"LOC", "AX10003", "h3", "s3"⟩]

/-- An environment with no variables set. -/
def exampleEnv : Env := fun _ => none

/-- A creation gateway that always succeeds with a fixed subscription id. -/
def exampleCreateGateway : CreateGateway := fun _ => .ok "u-1"

def exampleRowA : RowData := ⟨"A", "John", "Doe", "123456789", "1990-01-01"⟩

/-- A row whose NHS number equals `exampleRowA`'s apart from whitespace. -/
def exampleRowDup : RowData := ⟨"B", "Jane", "Doe", "123 456 789", "1990-01-01"⟩

def exampleRowC : RowData := ⟨"C", "Jim", "Beam", "987654321", "1985-05-05"⟩

/-- A CSV header row using the claim's `PROVIDER_REFERENCE` column name. -/
def exampleClaimHeaderRow : RawRow :=
  [("PROVIDER_REFERENCE", "A"), ("NHS_NUMBER", "123456789"),
   ("BIRTH_DATE", "1990-01-01"), ("FAMILY_NAME", "Doe"), ("GIVEN_NAME", "John")]

/-- A CSV row using the column names `_CareRecipientRecord` requires. -/
def exampleCodeHeaderRow : RawRow :=
  [("PROVIDER_REFERENCE_ID", "A"), ("NHS_NUMBER", "123456789"),
   ("BIRTH_DATE", "1990-01-01"), ("FAMILY_NAME", "Doe"), ("GIVEN_NAME", "John")]

/-! ## Theorems -/

theorem emitUser_of_not_suppressed (m : Message)
    (h : messageSuppressed m.text = false) : emitUser m = [m] := by
  cases m <;> simp [emitUser, Message.text] at h ⊢ <;> simp [h]

theorem deleteMessage_isError (gw : DeleteGateway) (r : StoredRecipient) :
    (deleteMessage gw r).isError = delFails gw r := by
  unfold deleteMessage delFails
  cases gw r.subscription_id <;> rfl

theorem deleteMessage_isInfo (gw : DeleteGateway) (r : StoredRecipient) :
    (deleteMessage gw r).isInfo = !delFails gw r := by
  unfold deleteMessage delFails
  cases gw r.subscription_id <;> rfl

/-- Characterisation of `delete_queryset`: when none of the per-record
messages trip the `message_user` suppression filter, the retained records
are exactly those whose gateway deletion failed, every record yields one
message, and the gateway is called once per record. -/
theorem delete_queryset_spec (gw : DeleteGateway) (records : List StoredRecipient)
    (h : ∀ r ∈ records, messageSuppressed (deleteMessage gw r).text = false) :
    delete_queryset gw records =
      (records.filter (delFails gw), records.map (deleteMessage gw), records.length) := by
  induction records with
  | nil => rfl
  | cons r rest ih =>
    have hr : messageSuppressed (deleteMessage gw r).text = false := h r (by simp)
    have ihr := ih (fun x hx => h x (by simp [hx]))
    cases hgw : gw r.subscription_id with
    | ok u =>
      have hmsg : deleteMessage gw r = .info (recipientStr r ++ " was deleted successfully") := by
        simp [deleteMessage, hgw]
      rw [hmsg] at hr
      simp [delete_queryset, hgw, ihr, List.filter_cons, delFails, hmsg,
        emitUser_of_not_suppressed _ hr]
    | error e =>
      have hmsg : deleteMessage gw r
          = .error ("Could not delete " ++ recipientStr r ++ ": " ++ e) := by
        simp [deleteMessage, hgw]
      rw [hmsg] at hr
      simp [delete_queryset, hgw, ihr, List.filter_cons, delFails, hmsg,
        emitUser_of_not_suppressed _ hr]

/-- C1: deleting a batch of M records is M independent attempts — one
gateway call per record; a record is removed exactly when its call
succeeded, otherwise it is retained and its failure reported; with exactly
one gateway failure, M−1 records are removed, one is retained, and M
per-record messages (M−1 informational, 1 error) are produced. -/
theorem c1_deletion_batch_independent (gw : DeleteGateway) (records : List StoredRecipient)
    (hsupp : ∀ r ∈ records, messageSuppressed (deleteMessage gw r).text = false)
    (hone : records.countP (delFails gw) = 1) :
    (delete_queryset gw records).2.2 = records.length ∧
    (delete_queryset gw records).1 = records.filter (delFails gw) ∧
    (delete_queryset gw records).1.length = 1 ∧
    (records.filter (fun r => !delFails gw r)).length = records.length - 1 ∧
    (delete_queryset gw records).2.1.length = records.length ∧
    (delete_queryset gw records).2.1.countP Message.isError = 1 ∧
    (delete_queryset gw records).2.1.countP Message.isInfo = records.length - 1 := by
  have hspec := delete_queryset_spec gw records hsupp
  have hlen : (records.filter (delFails gw)).length = 1 := by
    rw [← List.countP_eq_length_filter]; exact hone
  have hsplit := List.length_eq_countP_add_countP (delFails gw) records
  have hcongr : List.countP (fun a => decide (¬ delFails gw a = true)) records
      = List.countP (fun r => !delFails gw r) records := by
    refine List.countP_congr (fun x _ => ?_)
    by_cases hx : delFails gw x <;> simp [hx]
  rw [hcongr] at hsplit
  have hnot : records.countP (fun r => !delFails gw r) = records.length - 1 := by
    omega
  refine ⟨?_, ?_, ?_, ?_, ?_, ?_, ?_⟩
  · rw [hspec]
  · rw [hspec]
  · rw [hspec]; exact hlen
  · rw [← List.countP_eq_length_filter]; exact hnot
  · rw [hspec]; simp
  · rw [hspec]
    rw [List.countP_map]
    calc List.countP (Message.isError ∘ deleteMessage gw) records
        = List.countP (delFails gw) records := by
          refine List.countP_congr (fun x _ => ?_)
          simp [Function.comp, deleteMessage_isError]
      _ = 1 := hone
  · rw [hspec]
    rw [List.countP_map]
    calc List.countP (Message.isInfo ∘ deleteMessage gw) records
        = List.countP (fun r => !delFails gw r) records := by
          refine List.countP_congr (fun x _ => ?_)
          simp [Function.comp, deleteMessage_isInfo]
      _ = records.length - 1 := hnot

set_option maxRecDepth 4000 in
theorem c1_deletion_batch_independent_witness :
    (delete_queryset exampleDeleteGateway exampleRecipients).2.2
        = exampleRecipients.length ∧
    (delete_queryset exampleDeleteGateway exampleRecipients).1
        = exampleRecipients.filter (delFails exampleDeleteGateway) ∧
    (delete_queryset exampleDeleteGateway exampleRecipients).1.length = 1 ∧
    (exampleRecipients.filter (fun r => !delFails exampleDeleteGateway r)).length
        = exampleRecipients.length - 1 ∧
    (delete_queryset exampleDeleteGateway exampleRecipients).2.1.length
        = exampleRecipients.length ∧
    (delete_queryset exampleDeleteGateway exampleRecipients).2.1.countP Message.isError = 1 ∧
    (delete_queryset exampleDeleteGateway exampleRecipients).2.1.countP Message.isInfo
        = exampleRecipients.length - 1 :=
  c1_deletion_batch_independent exampleDeleteGateway exampleRecipients
    (by decide) (by decide)

/-- C4: the identifier hash uses the secure high-work-factor configuration
by default; the fast insecure configuration is selected if and only if
`STUPIDLY_HOBBLE_SECURITY` equals the exact sentinel string; and any two
environments without the sentinel hash the same identifier and salt to the
same output. -/
theorem c4_secure_hash_default (env env1 env2 : Env) (data : String) (salt : Date)
    (h1 : env1 hobbleVariable ≠ some hobbleSentinel)
    (h2 : env2 hobbleVariable ≠ some hobbleSentinel) :
    (selectHasher env = .noSecurity ↔ env hobbleVariable = some hobbleSentinel) ∧
    selectHasher env1 = .highSecurity ∧
    generate_nhs_number_hash env1 data salt = generate_nhs_number_hash env2 data salt := by
  refine ⟨?_, ?_, ?_⟩
  · unfold selectHasher
    by_cases h : env hobbleVariable = some hobbleSentinel <;> simp [h]
  · unfold selectHasher
    simp [h1]
  · unfold generate_nhs_number_hash selectHasher
    simp [h1, h2]

theorem c4_secure_hash_default_witness :
    (selectHasher (fun _ => some hobbleSentinel) = .noSecurity ↔
       (fun _ => some hobbleSentinel : Env) hobbleVariable = some hobbleSentinel) ∧
    selectHasher (fun _ => none) = .highSecurity ∧
    generate_nhs_number_hash (fun _ => none) "9999999999" ⟨1990, 1, 1⟩
      = generate_nhs_number_hash (fun _ => some "0") "9999999999" ⟨1990, 1, 1⟩ :=
  c4_secure_hash_default (fun _ => some hobbleSentinel) (fun _ => none) (fun _ => some "0")
    "9999999999" ⟨1990, 1, 1⟩ (by decide) (by decide)

/-- C5 counterexample: a success-status response without the
`X-Subscription-Id` header makes `create_subscription` raise `TypeError`
(from `uuid.UUID(None)`), not the `ManagementAPIClientError` domain error
the claim promises for every malformed-response condition. -/
theorem c5_counterexample_missing_header :
    create_subscription ⟨200, none, none⟩ = .error .typeError ∧
    isDomainError (create_subscription ⟨200, none, none⟩) = false :=
  ⟨rfl, rfl⟩

/-- C5 as amended: on a success-status response the returned value is the
UUID parsed from the `X-Subscription-Id` header; on status ≥ 400 with a
body that parses as an `OperationOutcome`, the domain error carries the
first issue's diagnostics; but malformed responses raise non-domain
exceptions — `TypeError` for a missing header, `ValueError` for an
unparsable header, and a pydantic validation error for an unparsable error
body. -/
theorem c5_amended_create_subscription (resp : HTTPResponse) :
    (∀ s u, resp.status_code < 400 → resp.x_subscription_id = some s →
       parseUUID s = some u → create_subscription resp = .ok u) ∧
    (∀ issue0 rest, 400 ≤ resp.status_code →
       resp.json_body = some ⟨issue0 :: rest⟩ →
       create_subscription resp = .error (.managementAPIClientError issue0.diagnostics)) ∧
    (resp.status_code < 400 → resp.x_subscription_id = none →
       create_subscription resp = .error .typeError) ∧
    (∀ s, resp.status_code < 400 → resp.x_subscription_id = some s → parseUUID s = none →
       create_subscription resp = .error .valueError) ∧
    (400 ≤ resp.status_code → resp.json_body = none →
       create_subscription resp = .error .pydanticValidationError) ∧
    (isDomainError (create_subscription resp) = true →
       ∃ d, create_subscription resp = .error (.managementAPIClientError d)) := by
  refine ⟨?_, ?_, ?_, ?_, ?_, ?_⟩
  · intro s u hlt hhdr hu
    simp [create_subscription, hhdr, hu, Nat.not_le.mpr hlt]
  · intro issue0 rest hge hbody
    simp [create_subscription, hbody, hge]
  · intro hlt hhdr
    simp [create_subscription, hhdr, Nat.not_le.mpr hlt]
  · intro s hlt hhdr hu
    simp [create_subscription, hhdr, hu, Nat.not_le.mpr hlt]
  · intro hge hbody
    simp [create_subscription, hbody, hge]
  · intro hdom
    unfold isDomainError at hdom
    cases hres : create_subscription resp with
    | ok u => rw [hres] at hdom; exact absurd hdom (by simp)
    | error e =>
      cases e with
      | managementAPIClientError d => exact ⟨d, rfl⟩
      | pydanticValidationError => rw [hres] at hdom; exact absurd hdom (by simp)
      | typeError => rw [hres] at hdom; exact absurd hdom (by simp)
      | valueError => rw [hres] at hdom; exact absurd hdom (by simp)

theorem c5_amended_create_subscription_witness :
    create_subscription ⟨201, some "0e229d83-9ead-4c93-9d9c-17a26d867a33", none⟩
      = .ok 18788924800484206382355027172618828339 ∧
    create_subscription ⟨422, none, some ⟨[⟨some "invalid request"⟩]⟩⟩
      = .error (.managementAPIClientError (some "invalid request")) ∧
    create_subscription ⟨204, none, none⟩ = .error .typeError ∧
    create_subscription ⟨204, some "not-a-uuid", none⟩ = .error .valueError ∧
    create_subscription ⟨500, none, none⟩ = .error .pydanticValidationError :=
  ⟨(c5_amended_create_subscription ⟨201, some "0e229d83-9ead-4c93-9d9c-17a26d867a33", none⟩).1
      _ _ (by decide) rfl (by decide),
   (c5_amended_create_subscription ⟨422, none, some ⟨[⟨some "invalid request"⟩]⟩⟩).2.1
      _ _ (by decide) rfl,
   (c5_amended_create_subscription ⟨204, none, none⟩).2.2.1 (by decide) rfl,
   (c5_amended_create_subscription ⟨204, some "not-a-uuid", none⟩).2.2.2.1
      _ (by decide) rfl (by decide),
   (c5_amended_create_subscription ⟨500, none, none⟩).2.2.2.2.1 (by decide) rfl⟩

/-- C9 as the code behaves: an uploaded text file that parses to zero data
rows (a header-only or empty CSV) makes `_is_csv_column_set_valid` index
`csv_data_list[0]` and the import handler propagates the `IndexError`
instead of reporting a message — the claim's safety property fails on
this input. -/
theorem c9_zero_data_rows_crash (maxLines : Nat) (env : Env) (gw : CreateGateway)
    (locId : String) (store : Store) :
    import_care_recipients maxLines env gw locId store [] = (.crashed "IndexError", store) :=
  rfl

/-- Successful field cleaning yields the stripped raw values and the
parsed birth date. -/
theorem cleanFields_ok {row : RowData} {f : CleanedFields}
    (h : cleanFields row = .ok f) :
    f.provider_reference_id = pyStrip row.provider_reference_id ∧
    f.given_name = pyStrip row.given_name ∧
    f.family_name = pyStrip row.family_name ∧
    f.nhs_number = pyStrip row.nhs_number ∧
    parseDate (pyStrip row.birth_date) = some f.birth_date := by
  cases heq : parseDate (pyStrip row.birth_date) with
  | none =>
    unfold cleanFields at h
    rw [heq] at h
    simp at h
  | some d =>
    unfold cleanFields at h
    rw [heq] at h
    have h' : (if fieldErrorsOf row = [] then
          (Except.ok ⟨pyStrip row.provider_reference_id, pyStrip row.given_name,
            pyStrip row.family_name, pyStrip row.nhs_number, d⟩ :
            Except (List (String × String)) CleanedFields)
        else .error (fieldErrorsOf row)) = .ok f := h
    by_cases hc : fieldErrorsOf row = []
    · rw [if_pos hc] at h'
      cases h'
      exact ⟨rfl, rfl, rfl, rfl, rfl⟩
    · rw [if_neg hc] at h'
      cases h'

theorem filter_dropWhile {α : Type} (p q : α → Bool) (l : List α)
    (h : ∀ a, q a = true → p a = false) :
    (l.dropWhile q).filter p = l.filter p := by
  induction l with
  | nil => rfl
  | cons a l ih =>
    by_cases ha : q a
    · rw [List.dropWhile_cons, if_pos ha, ih, List.filter_cons_of_neg (by simp [h a ha])]
    · rw [List.dropWhile_cons, if_neg ha]

/-- Removing all whitespace is unaffected by a prior `strip`. -/
theorem stripAll_pyStrip (s : String) :
    stripAllWhitespace (pyStrip s) = stripAllWhitespace s := by
  unfold stripAllWhitespace pyStrip
  congr 1
  show ((((s.data.dropWhile Char.isWhitespace).reverse.dropWhile
      Char.isWhitespace).reverse).filter (fun c => !c.isWhitespace))
    = s.data.filter (fun c => !c.isWhitespace)
  have hpq : ∀ c, Char.isWhitespace c = true → (!Char.isWhitespace c) = false := by
    intro c hc
    simp [hc]
  rw [List.filter_reverse, filter_dropWhile _ _ _ hpq, List.filter_reverse,
    List.reverse_reverse, filter_dropWhile _ _ _ hpq]

/-- C2: submitting a record whose whitespace-normalised identifier hashes
to an already-stored record's hash fails validation with the duplicate
message naming the conflicting record's `provider_reference_id`, never
calls the subscription gateway, leaves storage unchanged, and exactly one
record with that hash exists afterwards. -/
theorem c2_duplicate_rejected (store : Store) (env : Env) (gw : CreateGateway)
    (locId : String) (row : RowData) (f : CleanedFields) (conflicting : StoredRecipient)
    (hf : cleanFields row = .ok f)
    (hfind : store.find?
        (fun r => r.nhs_number_hash
          = generate_nhs_number_hash env (stripAllWhitespace row.nhs_number) f.birth_date)
        = some conflicting)
    (hcount : store.countP
        (fun r => r.nhs_number_hash
          = generate_nhs_number_hash env (stripAllWhitespace row.nhs_number) f.birth_date)
        = 1) :
    (submitForm store env gw locId row).1
      = .invalidRecord (duplicateMsg conflicting.provider_reference_id) ∧
    (submitForm store env gw locId row).2.2 = 0 ∧
    (submitForm store env gw locId row).2.1 = store ∧
    (submitForm store env gw locId row).2.1.countP
        (fun r => r.nhs_number_hash
          = generate_nhs_number_hash env (stripAllWhitespace row.nhs_number) f.birth_date)
        = 1 := by
  obtain ⟨-, -, -, hn, -⟩ := cleanFields_ok hf
  have hnn : stripAllWhitespace f.nhs_number = stripAllWhitespace row.nhs_number := by
    rw [hn, stripAll_pyStrip]
  have hval : formValidate store env gw row
      = (.recordError (duplicateMsg conflicting.provider_reference_id), 0) := by
    unfold formValidate
    rw [hf]
    simp only [hnn, hfind]
  unfold submitForm
  rw [hval]
  exact ⟨rfl, rfl, rfl, hcount⟩

theorem c2_duplicate_rejected_witness :
    (submitForm [⟨"LOC", "AX1", "scrypt[32768,12,6](1990-01-01;123456789)", "u-1"⟩]
        (fun _ => none) (fun _ => .ok "u-2") "LOC"
        ⟨"AX2", "Jane", "Doe", "123 456 789", "1990-01-01"⟩).1
      = .invalidRecord (duplicateMsg "AX1") ∧
    (submitForm [⟨"LOC", "AX1", "scrypt[32768,12,6](1990-01-01;123456789)", "u-1"⟩]
        (fun _ => none) (fun _ => .ok "u-2") "LOC"
        ⟨"AX2", "Jane", "Doe", "123 456 789", "1990-01-01"⟩).2.2 = 0 ∧
    (submitForm [⟨"LOC", "AX1", "scrypt[32768,12,6](1990-01-01;123456789)", "u-1"⟩]
        (fun _ => none) (fun _ => .ok "u-2") "LOC"
        ⟨"AX2", "Jane", "Doe", "123 456 789", "1990-01-01"⟩).2.1
      = [⟨"LOC", "AX1", "scrypt[32768,12,6](1990-01-01;123456789)", "u-1"⟩] ∧
    (submitForm [⟨"LOC", "AX1", "scrypt[32768,12,6](1990-01-01;123456789)", "u-1"⟩]
        (fun _ => none) (fun _ => .ok "u-2") "LOC"
        ⟨"AX2", "Jane", "Doe", "123 456 789", "1990-01-01"⟩).2.1.countP
        (fun r => r.nhs_number_hash
          = generate_nhs_number_hash (fun _ => none)
              (stripAllWhitespace "123 456 789") (⟨1990, 1, 1⟩ : Date))
        = 1 :=
  c2_duplicate_rejected
    [⟨"LOC", "AX1", "scrypt[32768,12,6](1990-01-01;123456789)", "u-1"⟩]
    (fun _ => none) (fun _ => .ok "u-2") "LOC"
    ⟨"AX2", "Jane", "Doe", "123 456 789", "1990-01-01"⟩
    ⟨"AX2", "Jane", "Doe", "123 456 789", ⟨1990, 1, 1⟩⟩
    ⟨"LOC", "AX1", "scrypt[32768,12,6](1990-01-01;123456789)", "u-1"⟩
    (by decide) (by decide) (by decide)

/-- C3: a valid single-record submission persists exactly one record whose
`nhs_number_hash` is the configured key-derivation hash of the submitted
identifier with all whitespace removed, salted with the string form of the
birth date; the persisted record consists only of the owning location, the
stripped provider reference, the hash and the gateway's subscription id —
the name, raw identifier and birth date are not persisted. -/
theorem c3_persisted_hash (store : Store) (env : Env) (gw : CreateGateway)
    (locId : String) (row : RowData) (f : CleanedFields) (u : String)
    (hf : cleanFields row = .ok f)
    (hnodup : store.find?
        (fun r => r.nhs_number_hash
          = generate_nhs_number_hash env (stripAllWhitespace row.nhs_number) f.birth_date)
        = none)
    (hgw : gw ⟨pySplitWhitespace f.given_name, f.family_name,
        stripAllWhitespace row.nhs_number, f.birth_date⟩ = .ok u)
    (hnoconflict : store.any (fun r =>
        r.nhs_number_hash
            = generate_nhs_number_hash env (stripAllWhitespace row.nhs_number) f.birth_date
          ∨ (r.provider_reference_id = pyStrip row.provider_reference_id
             ∧ r.care_provider_location = locId)) = false) :
    submitForm store env gw locId row
      = (.created ⟨locId, pyStrip row.provider_reference_id,
            generate_nhs_number_hash env (stripAllWhitespace row.nhs_number) f.birth_date, u⟩,
         store ++ [⟨locId, pyStrip row.provider_reference_id,
            generate_nhs_number_hash env (stripAllWhitespace row.nhs_number) f.birth_date, u⟩],
         1) := by
  obtain ⟨hp, -, -, hn, -⟩ := cleanFields_ok hf
  have hnn : stripAllWhitespace f.nhs_number = stripAllWhitespace row.nhs_number := by
    rw [hn, stripAll_pyStrip]
  have hval : formValidate store env gw row
      = (.ok f (generate_nhs_number_hash env (stripAllWhitespace row.nhs_number) f.birth_date)
          (pySplitWhitespace f.given_name) u, 1) := by
    unfold formValidate
    rw [hf]
    simp only [hnn, hnodup, hgw]
  have hsave : formSave store locId f
        (generate_nhs_number_hash env (stripAllWhitespace row.nhs_number) f.birth_date) u
      = .ok (⟨locId, f.provider_reference_id,
              generate_nhs_number_hash env (stripAllWhitespace row.nhs_number) f.birth_date, u⟩,
             store ++ [⟨locId, f.provider_reference_id,
              generate_nhs_number_hash env (stripAllWhitespace row.nhs_number) f.birth_date, u⟩]) := by
    unfold formSave
    rw [hp, hnoconflict]
    simp
  unfold submitForm
  simp only [hval]
  rw [hsave, hp]

theorem c3_persisted_hash_witness :
    submitForm [] (fun _ => none) (fun _ => .ok "u-1") "LOC"
        ⟨" AX1 ", "Lavina Maxine", "Doe", "999 999 9999", "1990-01-01"⟩
      = (.created ⟨"LOC", pyStrip " AX1 ",
            generate_nhs_number_hash (fun _ => none)
              (stripAllWhitespace "999 999 9999") (⟨1990, 1, 1⟩ : Date), "u-1"⟩,
         [] ++ [⟨"LOC", pyStrip " AX1 ",
            generate_nhs_number_hash (fun _ => none)
              (stripAllWhitespace "999 999 9999") (⟨1990, 1, 1⟩ : Date), "u-1"⟩],
         1) :=
  c3_persisted_hash [] (fun _ => none) (fun _ => .ok "u-1") "LOC"
    ⟨" AX1 ", "Lavina Maxine", "Doe", "999 999 9999", "1990-01-01"⟩
    ⟨"AX1", "Lavina Maxine", "Doe", "999 999 9999", ⟨1990, 1, 1⟩⟩ "u-1"
    (by decide) (by decide) (by decide) (by decide)

/-- When the birth date does not parse, the field-error list is
non-empty (it contains a `birth_date` error). -/
theorem fieldErrors_nonempty_of_parse_none {row : RowData}
    (h : parseDate (pyStrip row.birth_date) = none) :
    fieldErrorsOf row ≠ [] := by
  unfold fieldErrorsOf
  rw [h]
  by_cases hb : pyStrip row.birth_date = "" <;> simp [hb]

/-- `cleanFields` never fails with an empty error list. -/
theorem cleanFields_error_ne_nil {row : RowData} {errs : List (String × String)}
    (h : cleanFields row = .error errs) : errs ≠ [] := by
  cases heq : parseDate (pyStrip row.birth_date) with
  | none =>
    unfold cleanFields at h
    rw [heq] at h
    have h' : (Except.error (fieldErrorsOf row) :
        Except (List (String × String)) CleanedFields) = .error errs := h
    cases h'
    exact fieldErrors_nonempty_of_parse_none heq
  | some d =>
    unfold cleanFields at h
    rw [heq] at h
    have h' : (if fieldErrorsOf row = [] then
          (Except.ok ⟨pyStrip row.provider_reference_id, pyStrip row.given_name,
            pyStrip row.family_name, pyStrip row.nhs_number, d⟩ :
            Except (List (String × String)) CleanedFields)
        else .error (fieldErrorsOf row)) = .error errs := h
    by_cases hc : fieldErrorsOf row = []
    · rw [if_pos hc] at h'
      cases h'
    · rw [if_neg hc] at h'
      cases h'
      exact hc

/-- `formValidate` never reports an empty field-error list. -/
theorem formValidate_fieldErrors_ne_nil {store : Store} {env : Env} {gw : CreateGateway}
    {row : RowData} {errs : List (String × String)} {n : Nat}
    (h : formValidate store env gw row = (.fieldErrors errs, n)) : errs ≠ [] := by
  unfold formValidate at h
  cases hcf : cleanFields row with
  | error errs' =>
    rw [hcf] at h
    have h' : ((FormOutcome.fieldErrors errs' : FormOutcome), (0 : Nat))
        = (.fieldErrors errs, n) := h
    cases h'
    exact cleanFields_error_ne_nil hcf
  | ok f =>
    simp only [hcf] at h
    cases hfind : List.find? (fun r => r.nhs_number_hash
        = generate_nhs_number_hash env (stripAllWhitespace f.nhs_number) f.birth_date) store with
    | some c =>
      simp only [hfind] at h
      cases h
    | none =>
      simp only [hfind] at h
      cases hgw : gw ⟨pySplitWhitespace f.given_name, f.family_name,
          stripAllWhitespace f.nhs_number, f.birth_date⟩ with
      | ok u => simp only [hgw] at h; cases h
      | error e => simp only [hgw] at h; cases h

/-- Every error entry a row contributes is labelled with that row's raw
`provider_reference_id` and its counter. -/
theorem rowProcess_labels (env : Env) (gw : CreateGateway) (locId : String) (store : Store)
    (row : RowData) (counter : Nat) :
    ∀ e ∈ (rowProcess env gw locId store row counter).2.1,
      e.1 = rowLabel row.provider_reference_id counter := by
  intro e he
  unfold rowProcess at he
  rcases hv : formValidate store env gw row with ⟨outcome, n⟩
  cases outcome with
  | fieldErrors errs =>
    simp only [hv, List.mem_map] at he
    obtain ⟨fe, -, rfl⟩ := he
    rfl
  | recordError msg =>
    simp only [hv, List.mem_cons, List.not_mem_nil, or_false] at he
    rcases he with rfl | rfl <;> rfl
  | ok cd hsh given subId =>
    simp only [hv] at he
    cases hs : formSave store locId cd hsh subId with
    | error u =>
      simp only [hs, List.mem_singleton] at he
      rw [he]
    | ok p =>
      obtain ⟨inserted, store'⟩ := p
      simp only [hs] at he
      simp at he

/-- A row that contributes no error entry creates exactly one record;
a row that contributes error entries creates none and leaves the
database unchanged. -/
theorem rowProcess_cases (env : Env) (gw : CreateGateway) (locId : String) (store : Store)
    (row : RowData) (counter : Nat) :
    ((rowProcess env gw locId store row counter).2.1 = []
      → (rowProcess env gw locId store row counter).1.length = 1) ∧
    ((rowProcess env gw locId store row counter).2.1 ≠ []
      → (rowProcess env gw locId store row counter).1 = []
        ∧ (rowProcess env gw locId store row counter).2.2 = store) := by
  unfold rowProcess
  rcases hv : formValidate store env gw row with ⟨outcome, n⟩
  cases outcome with
  | fieldErrors errs =>
    have hne := formValidate_fieldErrors_ne_nil hv
    simp only [hv]
    constructor
    · intro h
      simp only [List.map_eq_nil_iff] at h
      exact absurd h hne
    · simp
  | recordError msg =>
    simp [hv]
  | ok cd hsh given subId =>
    simp only [hv]
    cases hs : formSave store locId cd hsh subId with
    | error u =>
      simp [hs]
    | ok p =>
      obtain ⟨inserted, store'⟩ := p
      simp [hs]

/-- Splitting the bulk-create loop at a list boundary: the suffix is
processed against the database state left by the prefix, with the counter
advanced by the prefix length. -/
theorem bulkGo_append (env : Env) (gw : CreateGateway) (locId : String) (store : Store)
    (xs ys : List RowData) (c : Nat) :
    bulkGo env gw locId store (xs ++ ys) c
      = ((bulkGo env gw locId store xs c).1
           ++ (bulkGo env gw locId (bulkGo env gw locId store xs c).2.2 ys
                (c + xs.length)).1,
         (bulkGo env gw locId store xs c).2.1
           ++ (bulkGo env gw locId (bulkGo env gw locId store xs c).2.2 ys
                (c + xs.length)).2.1,
         (bulkGo env gw locId (bulkGo env gw locId store xs c).2.2 ys
           (c + xs.length)).2.2) := by
  induction xs generalizing store c with
  | nil => simp [bulkGo]
  | cons x xs ih =>
    have harith : c + 1 + xs.length = c + (xs.length + 1) := by omega
    simp only [List.cons_append, bulkGo, List.append_eq]
    rw [ih]
    simp [List.append_assoc, harith]

/-- A run of the bulk-create loop that collects no errors creates one
record per row. -/
theorem bulkGo_all_ok_length (env : Env) (gw : CreateGateway) (locId : String)
    (store : Store) (rows : List RowData) (c : Nat)
    (h : (bulkGo env gw locId store rows c).2.1 = []) :
    (bulkGo env gw locId store rows c).1.length = rows.length := by
  induction rows generalizing store c with
  | nil => simp [bulkGo]
  | cons r rest ih =>
    simp only [bulkGo, List.append_eq_nil] at h
    obtain ⟨h1, h2⟩ := h
    have hone := (rowProcess_cases env gw locId store r c).1 h1
    simp only [bulkGo, List.length_append]
    rw [hone, ih _ _ h2]
    simp [List.length_cons, Nat.add_comm]

/-- C10: bulk-import row labels use a zero-based ordinal over data rows
only: the row at 1-based position `pre.length + 1` among the data rows is
labelled `line (pre.length + 1) - 1`, i.e. its position among data rows
minus one, not its physical line number in the file. -/
theorem c10_row_labels_zero_based (env : Env) (gw : CreateGateway) (locId : String)
    (store : Store) (pre : List RowData) (row : RowData) (post : List RowData) :
    (bulkGo env gw locId store (pre ++ row :: post) 0).2.1
      = (bulkGo env gw locId store pre 0).2.1
        ++ (rowProcess env gw locId (bulkGo env gw locId store pre 0).2.2
              row pre.length).2.1
        ++ (bulkGo env gw locId
              (rowProcess env gw locId (bulkGo env gw locId store pre 0).2.2
                row pre.length).2.2
              post (pre.length + 1)).2.1 ∧
    ((rowProcess env gw locId (bulkGo env gw locId store pre 0).2.2
        row pre.length).2.1.map Prod.fst).all
      (fun s => s = row.provider_reference_id ++ " (line "
                ++ Nat.repr ((pre.length + 1) - 1) ++ ")") = true := by
  constructor
  · rw [bulkGo_append]
    simp only [bulkGo, Nat.zero_add, List.append_assoc]
  · rw [List.all_eq_true]
    intro s hs
    rw [List.mem_map] at hs
    obtain ⟨e, he, rfl⟩ := hs
    rw [rowProcess_labels env gw locId (bulkGo env gw locId store pre 0).2.2
      row pre.length e he]
    simp [rowLabel]

/-- C7 counterexample: importing two rows where only the second is invalid
(a duplicate identifier, a record-level error) creates N−1 = 1 record but
reports TWO errors for that row, not exactly one — the record-level error
is collected once from `non_field_errors` and once more from the
`__all__` key of `form.errors`. -/
theorem c7_counterexample_double_report :
    (bulk_create_care_recipients exampleEnv exampleCreateGateway "LOC" []
        [exampleRowA, exampleRowDup]).1.length = 2 - 1 ∧
    ¬ (bulk_create_care_recipients exampleEnv exampleCreateGateway "LOC" []
        [exampleRowA, exampleRowDup]).2.1.length = 1 ∧
    (bulk_create_care_recipients exampleEnv exampleCreateGateway "LOC" []
        [exampleRowA, exampleRowDup]).2.1.map Prod.fst
      = ["B (line 1)", "B (line 1)"] :=
  ⟨by decide, by decide, by decide⟩

/-- C7 as amended: in a bulk import where every row except the one at
position `pre.length` processes cleanly, N−1 records are created, in
order (the prefix's records followed by the suffix's); every reported
error is labelled with the failing row's raw `provider_reference_id` and
its zero-based position; and the number of errors for that row is the
number of its failing fields when field validation fails, exactly two for
a record-level validation error (which is reported twice), and one for a
storage-level `IntegrityError`. -/
theorem c7_amended_single_invalid_row (env : Env) (gw : CreateGateway) (locId : String)
    (store : Store) (pre : List RowData) (row : RowData) (post : List RowData)
    (hpre : (bulkGo env gw locId store pre 0).2.1 = [])
    (hrow : (rowProcess env gw locId (bulkGo env gw locId store pre 0).2.2
        row pre.length).2.1 ≠ [])
    (hpost : (bulkGo env gw locId
        (rowProcess env gw locId (bulkGo env gw locId store pre 0).2.2
          row pre.length).2.2
        post (pre.length + 1)).2.1 = []) :
    (bulkGo env gw locId store (pre ++ row :: post) 0).2.1
      = (rowProcess env gw locId (bulkGo env gw locId store pre 0).2.2
          row pre.length).2.1 ∧
    (bulkGo env gw locId store (pre ++ row :: post) 0).1
      = (bulkGo env gw locId store pre 0).1
        ++ (bulkGo env gw locId
              (rowProcess env gw locId (bulkGo env gw locId store pre 0).2.2
                row pre.length).2.2
              post (pre.length + 1)).1 ∧
    (bulkGo env gw locId store (pre ++ row :: post) 0).1.length
      = (pre.length + 1 + post.length) - 1 ∧
    (∀ e ∈ (rowProcess env gw locId (bulkGo env gw locId store pre 0).2.2
        row pre.length).2.1,
      e.1 = rowLabel row.provider_reference_id pre.length) ∧
    (∀ errs n,
      formValidate (bulkGo env gw locId store pre 0).2.2 env gw row
          = (.fieldErrors errs, n)
        → (rowProcess env gw locId (bulkGo env gw locId store pre 0).2.2
            row pre.length).2.1.length = errs.length) ∧
    (∀ msg n,
      formValidate (bulkGo env gw locId store pre 0).2.2 env gw row
          = (.recordError msg, n)
        → (rowProcess env gw locId (bulkGo env gw locId store pre 0).2.2
            row pre.length).2.1.length = 2) ∧
    (∀ cd hsh given subId n,
      formValidate (bulkGo env gw locId store pre 0).2.2 env gw row
          = (.ok cd hsh given subId, n)
        → (rowProcess env gw locId (bulkGo env gw locId store pre 0).2.2
            row pre.length).2.1.length = 1) := by
  have hfail := (rowProcess_cases env gw locId (bulkGo env gw locId store pre 0).2.2
    row pre.length).2 hrow
  have hsplit := bulkGo_append env gw locId store pre (row :: post) 0
  have hstep :
      bulkGo env gw locId (bulkGo env gw locId store pre 0).2.2 (row :: post)
          (0 + pre.length)
        = ((rowProcess env gw locId (bulkGo env gw locId store pre 0).2.2
              row pre.length).1
            ++ (bulkGo env gw locId
                  (rowProcess env gw locId (bulkGo env gw locId store pre 0).2.2
                    row pre.length).2.2
                  post (pre.length + 1)).1,
           (rowProcess env gw locId (bulkGo env gw locId store pre 0).2.2
              row pre.length).2.1
            ++ (bulkGo env gw locId
                  (rowProcess env gw locId (bulkGo env gw locId store pre 0).2.2
                    row pre.length).2.2
                  post (pre.length + 1)).2.1,
           (bulkGo env gw locId
              (rowProcess env gw locId (bulkGo env gw locId store pre 0).2.2
                row pre.length).2.2
              post (pre.length + 1)).2.2) := by
    simp only [bulkGo, Nat.zero_add]
  refine ⟨?_, ?_, ?_, rowProcess_labels env gw locId _ row pre.length, ?_, ?_, ?_⟩
  · rw [hsplit, hstep]
    simp [hpre, hpost]
  · rw [hsplit, hstep]
    simp [hfail.1]
  · rw [hsplit, hstep]
    simp only [List.length_append]
    rw [bulkGo_all_ok_length env gw locId store pre 0 hpre, hfail.1,
      bulkGo_all_ok_length env gw locId _ post (pre.length + 1) hpost]
    simp
  · intro errs n hv
    unfold rowProcess
    simp only [hv, List.length_map]
  · intro msg n hv
    unfold rowProcess
    simp only [hv]
    rfl
  · intro cd hsh given subId n hv
    unfold rowProcess at hrow ⊢
    simp only [hv] at hrow ⊢
    cases hs : formSave (bulkGo env gw locId store pre 0).2.2 locId cd hsh subId with
    | error u => simp only [hs]; rfl
    | ok p =>
      obtain ⟨inserted, store'⟩ := p
      simp only [hs] at hrow
      exact absurd rfl hrow

theorem c7_amended_single_invalid_row_witness :
    (bulkGo exampleEnv exampleCreateGateway "LOC" []
        ([exampleRowA] ++ exampleRowDup :: [exampleRowC]) 0).2.1
      = (rowProcess exampleEnv exampleCreateGateway "LOC"
          (bulkGo exampleEnv exampleCreateGateway "LOC" [] [exampleRowA] 0).2.2
          exampleRowDup [exampleRowA].length).2.1 ∧
    (bulkGo exampleEnv exampleCreateGateway "LOC" []
        ([exampleRowA] ++ exampleRowDup :: [exampleRowC]) 0).1.length
      = ([exampleRowA].length + 1 + [exampleRowC].length) - 1 :=
  have h := c7_amended_single_invalid_row exampleEnv exampleCreateGateway "LOC" []
    [exampleRowA] exampleRowDup [exampleRowC] (by decide) (by decide) (by decide)
  ⟨h.1, h.2.2.1⟩

theorem rowKeys_lowerKeys (r : RawRow) :
    rowKeys (lowerKeys r) = (rowKeys r).map pyLower := by
  simp [rowKeys, lowerKeys, List.map_map, Function.comp]

/-- C6 counterexample: a file whose header is exactly the claim's column
set `{PROVIDER_REFERENCE, NHS_NUMBER, BIRTH_DATE, FAMILY_NAME,
GIVEN_NAME}` is rejected with the column-set structural error, while a
file using `PROVIDER_REFERENCE_ID` is accepted and imported — the claim
names the wrong column. -/
theorem c6_counterexample_column_name :
    import_care_recipients 100 exampleEnv exampleCreateGateway "LOC" []
        [exampleClaimHeaderRow]
      = (.structuralError msgInvalidColumnSet, []) ∧
    (import_care_recipients 100 exampleEnv exampleCreateGateway "LOC" []
        [exampleCodeHeaderRow]).1
      = .imported [Message.info (msgFileImported ++ ": " ++ Nat.repr 1)] :=
  ⟨by decide, by decide⟩

/-- C6 as amended: a bulk import accepts a file only when its header row
contains, case-insensitively (keys are lowercased) and in any order (set
comparison), exactly the columns `{PROVIDER_REFERENCE_ID, NHS_NUMBER,
BIRTH_DATE, FAMILY_NAME, GIVEN_NAME}`; any mismatch aborts the batch
before any row is processed, with zero records created and exactly one
structural error message. -/
theorem c6_amended_column_set (maxLines : Nat) (env : Env) (gw : CreateGateway)
    (locId : String) (store : Store) (first : RawRow) (rest : List RawRow) :
    is_csv_column_set_valid ((first :: rest).map lowerKeys)
      = .ok (sameKeySet ((rowKeys first).map pyLower) requiredColumns) ∧
    (sameKeySet ((rowKeys first).map pyLower) requiredColumns = false
      → import_care_recipients maxLines env gw locId store (first :: rest)
          = (.structuralError msgInvalidColumnSet, store)) ∧
    (sameKeySet ((rowKeys first).map pyLower) requiredColumns = true
      → (first :: rest).length ≤ maxLines
      → ∃ msgs store2,
          import_care_recipients maxLines env gw locId store (first :: rest)
            = (.imported msgs, store2)) := by
  have hval : is_csv_column_set_valid ((first :: rest).map lowerKeys)
      = .ok (sameKeySet ((rowKeys first).map pyLower) requiredColumns) := by
    simp only [List.map_cons, is_csv_column_set_valid, rowKeys_lowerKeys]
  refine ⟨hval, ?_, ?_⟩
  · intro hb
    unfold import_care_recipients
    simp only [hval, hb]
  · intro hb hlen
    have hnotover : ¬ ((first :: rest).map lowerKeys).length > maxLines := by
      simp only [List.length_map]
      omega
    unfold import_care_recipients
    simp only [hval, hb, if_neg hnotover]
    exact ⟨_, _, rfl⟩

theorem c6_amended_column_set_witness :
    import_care_recipients 100 exampleEnv exampleCreateGateway "LOC" []
        [exampleClaimHeaderRow]
      = (.structuralError msgInvalidColumnSet, []) :=
  (c6_amended_column_set 100 exampleEnv exampleCreateGateway "LOC" []
    exampleClaimHeaderRow []).2.1 (by decide)

/-- C8: a bulk import whose parsed data-row count exceeds the configured
maximum creates zero records (the database is returned unchanged); when
the header passed the column check, the outcome is exactly the single
line-count structural error, issued before any record creation. -/
theorem c8_line_count_ceiling (maxLines : Nat) (env : Env) (gw : CreateGateway)
    (locId : String) (store : Store) (raw : List RawRow)
    (hover : raw.length > maxLines) :
    (import_care_recipients maxLines env gw locId store raw).2 = store ∧
    (is_csv_column_set_valid (raw.map lowerKeys) = .ok true
      → import_care_recipients maxLines env gw locId store raw
          = (.structuralError (msgLineCountExceeded ++ ": " ++ Nat.repr maxLines), store)) := by
  cases raw with
  | nil => simp at hover
  | cons first rest =>
    have hval : is_csv_column_set_valid ((first :: rest).map lowerKeys)
        = .ok (sameKeySet ((rowKeys first).map pyLower) requiredColumns) := by
      simp only [List.map_cons, is_csv_column_set_valid, rowKeys_lowerKeys]
    have hlen : ((first :: rest).map lowerKeys).length > maxLines := by
      simp only [List.length_map]
      omega
    by_cases hb : sameKeySet ((rowKeys first).map pyLower) requiredColumns = true
    · rw [hb] at hval
      constructor
      · unfold import_care_recipients
        simp only [hval, if_pos hlen]
      · intro _
        unfold import_care_recipients
        simp only [hval, if_pos hlen]
    · rw [Bool.not_eq_true] at hb
      rw [hb] at hval
      constructor
      · unfold import_care_recipients
        simp only [hval]
      · intro hcontra
        rw [hval] at hcontra
        cases hcontra

theorem c8_line_count_ceiling_witness :
    (import_care_recipients 1 exampleEnv exampleCreateGateway "LOC" []
        [exampleCodeHeaderRow, exampleCodeHeaderRow]).2 = [] ∧
    import_care_recipients 1 exampleEnv exampleCreateGateway "LOC" []
        [exampleCodeHeaderRow, exampleCodeHeaderRow]
      = (.structuralError (msgLineCountExceeded ++ ": " ++ Nat.repr 1), []) :=
  have h := c8_line_count_ceiling 1 exampleEnv exampleCreateGateway "LOC" []
    [exampleCodeHeaderRow, exampleCodeHeaderRow] (by decide)
  ⟨h.1, h.2 (by decide)⟩

end ManagementInterface
